import Mathlib

/-!
# Verification of the laundry-machine reservation app (`src/app.js`)

Shallow embedding of the reservation core of `LaundryApp`:

* the static machine catalog (`this.machines`, app.js lines 3-8),
* the stored per-machine record written to `localStorage`
  (`setMachineState` / `getMachineState`, lines 155-162),
* the live busy derivation `isMachineInUse` (lines 164-170),
* the claim path `handleMachineScan` (103-116) + `startTimer` (128-142),
* the duration adjustment `adjustTime` (118-126),
* notification scheduling `scheduleNotification` (144-153),
* the staleness sweep inside `loadMachineStates` (172-184),
* the remaining-minutes display computation of `updateUI` (186-211).

Timestamps are modelled as natural numbers of milliseconds since the epoch
(`Date.now()`), durations as minutes.  A missing or unparsable `endTime`
string is modelled as `none`: in JavaScript `new Date(undefined)` is an
Invalid Date and every `<`/`<=`/`>` comparison against it is false.
-/

namespace LaundryApp

/-- The four machine identifiers of the catalog (app.js lines 3-8). -/
inductive MachineId
  | washer1
  | washer2
  | dryer1
  | dryer2
  deriving DecidableEq, Repr

/-- Static catalog entry: `{ type, defaultTime }` (app.js lines 3-8). -/
structure MachineDescriptor where
  isDryer : Bool
  defaultTime : Nat
  deriving DecidableEq, Repr

/-- The catalog `this.machines`: washers default to 30 minutes, dryers to 60. -/
def machines : MachineId → MachineDescriptor
  | .washer1 => ⟨false, 30⟩
  | .washer2 => ⟨false, 30⟩
  | .dryer1 => ⟨true, 60⟩
  | .dryer2 => ⟨true, 60⟩

/-- The stored record `{inUse, endTime}` serialized into `localStorage`.
`endTime = none` models a record whose `endTime` field is absent (as produced
by the staleness sweep, which writes `{ inUse: false }`, app.js line 178). -/
structure MachineState where
  inUse : Bool
  endTime : Option Nat
  deriving DecidableEq, Repr

/-- The `localStorage` contents: one optional record per machine key.
`none` models an absent entry (`localStorage.getItem` returning null). -/
structure Storage where
  washer1 : Option MachineState
  washer2 : Option MachineState
  dryer1 : Option MachineState
  dryer2 : Option MachineState
  deriving DecidableEq, Repr

/-- Embeds `getMachineState` (app.js 159-162): read and parse a machine's record. -/
def Storage.get (st : Storage) : MachineId → Option MachineState
  | .washer1 => st.washer1
  | .washer2 => st.washer2
  | .dryer1 => st.dryer1
  | .dryer2 => st.dryer2

/-- Embeds `setMachineState` (app.js 155-157): serialize and store a record. -/
def Storage.set (st : Storage) (m : MachineId) (s : MachineState) : Storage :=
  match m with
  | .washer1 => { st with washer1 := some s }
  | .washer2 => { st with washer2 := some s }
  | .dryer1 => { st with dryer1 := some s }
  | .dryer2 => { st with dryer2 := some s }

/-- Empty storage: no machine has a record. -/
def Storage.empty : Storage := ⟨none, none, none, none⟩

/-- The comparison `new Date(state.endTime) > new Date()` (app.js line 169).  An absent
`endTime` parses to Invalid Date, whose comparisons are all false. -/
def endTimeAfter (e : Option Nat) (now : Nat) : Bool :=
  match e with
  | some t => now < t
  | none => false

/-- Embeds `isMachineInUse` (app.js 164-170): a machine is busy iff it has a stored
record with `inUse` truthy whose `endTime` is strictly in the future. -/
def isMachineInUse (st : Storage) (now : Nat) (m : MachineId) : Bool :=
  match st.get m with
  | none => false
  | some s => s.inUse && endTimeAfter s.endTime now

/-- The expression `Math.ceil((endTime - new Date()) / 60000)` (app.js line 195), as a
natural-number ceiling division (only evaluated while `now < endTime`). -/
def minutesLeftOf (endTime now : Nat) : Nat :=
  (endTime - now + 59999) / 60000

/-- The derived status shown by `updateUI` (app.js 186-211). -/
inductive MachineStatus
  | available
  | inUse (minutesLeft : Nat)
  deriving DecidableEq, Repr

/-- Status derivation of `updateUI` (app.js 192-203): busy machines show
`In Use` with the ceiling of the remaining time in minutes, others show
`Available`.  The `getD 0` is never reached: `isMachineInUse` being true
forces `endTime` to be present. -/
def getStatus (st : Storage) (now : Nat) (m : MachineId) : MachineStatus :=
  match st.get m with
  | none => .available
  | some s =>
    if s.inUse && endTimeAfter s.endTime now then
      .inUse (minutesLeftOf (s.endTime.getD 0) now)
    else .available

/-- Result of a claim attempt. -/
inductive ClaimResult
  | success (record : MachineState)
  | machineBusy
  deriving DecidableEq, Repr

/-- The claim operation: the busy check of `handleMachineScan` (app.js 108)
followed, on a free machine, by the record write of `startTimer`
(app.js 131-137): `endTime = Date.now() + minutes * 60000`. -/
def claim (st : Storage) (now : Nat) (m : MachineId) (minutes : Nat) :
    ClaimResult × Storage :=
  if isMachineInUse st now m then (.machineBusy, st)
  else
    let record : MachineState := ⟨true, some (now + minutes * 60000)⟩
    (.success record, st.set m record)

/-- The clamp inside adjustTime (app.js 124):
`Math.min(Math.max(currentTime, 5), 90)`. -/
def clampDuration (t : Int) : Int := min (max t 5) 90

/-- One step of the expiry sweep in `loadMachineStates` (app.js 174-179):
a present record whose `endTime` has passed (`endTime <= new Date()`) is
rewritten to `{ inUse: false }` — with no `endTime` field.  A record without
an `endTime` gives Invalid Date, for which `<=` is false, so it is left
untouched. -/
def expireOne (now : Nat) : Option MachineState → Option MachineState
  | none => none
  | some s =>
    match s.endTime with
    | some e => if e ≤ now then some ⟨false, none⟩ else some s
    | none => some s

/-- The staleness sweep of `loadMachineStates` (app.js 172-181) over the
whole catalog. -/
def expireStale (now : Nat) (st : Storage) : Storage :=
  ⟨expireOne now st.washer1, expireOne now st.washer2,
   expireOne now st.dryer1, expireOne now st.dryer2⟩

/-- Whether the sweep performs a `setMachineState` write for one record
(the condition on app.js line 177). -/
def expireWritesOne (now : Nat) : Option MachineState → Bool
  | none => false
  | some s =>
    match s.endTime with
    | some e => decide (e ≤ now)
    | none => false

/-- The machines the sweep writes to, in catalog order. -/
def expireWrites (now : Nat) (st : Storage) : List MachineId :=
  (if expireWritesOne now st.washer1 then [MachineId.washer1] else []) ++
  (if expireWritesOne now st.washer2 then [MachineId.washer2] else []) ++
  (if expireWritesOne now st.dryer1 then [MachineId.dryer1] else []) ++
  (if expireWritesOne now st.dryer2 then [MachineId.dryer2] else [])

/-- A pending completion-warning alert: machine id plus absolute fire time.
`scheduleNotification` (app.js 144-153) passes `(minutes - 10) * 60000` to
`setTimeout`; per the HTML timer specification a negative timeout is clamped
to 0, modelled by `Int.toNat`. -/
structure PendingAlert where
  machineId : MachineId
  fireTime : Nat
  deriving DecidableEq, Repr

/-- Embeds `scheduleNotification` (app.js 144-153): one deferred alert for the
machine, due `(minutes - 10)` minutes from now, clamped at zero delay. -/
def scheduleNotification (now : Nat) (m : MachineId) (minutes : Nat) :
    PendingAlert :=
  ⟨m, now + (((minutes : Int) - 10) * 60000).toNat⟩

/-- The mutable state of a `LaundryApp` instance together with its
environment: `localStorage`, `this.currentMachine`, the modal's
`#selected-time` text, the modal's visibility, the alerts currently pending
in `setTimeout` queues, and the wall clock. -/
structure AppState where
  storage : Storage
  currentMachine : Option MachineId
  selectedTime : Nat
  modalVisible : Bool
  pending : List PendingAlert
  now : Nat
  deriving DecidableEq, Repr

/-- Embeds `hideModal` (app.js 213-216): hides the modal and clears
`this.currentMachine`. -/
def hideModal (a : AppState) : AppState :=
  { a with modalVisible := false, currentMachine := none }

/-- Embeds `handleMachineScan` (app.js 103-116) for an id in the catalog:
`this.currentMachine` is assigned BEFORE the busy check (line 105); a busy
machine only triggers an alert dialog and returns, leaving the modal as it
was; a free machine gets the modal opened with its default time. -/
def handleMachineScan (a : AppState) (m : MachineId) : AppState :=
  let a1 := { a with currentMachine := some m }
  if isMachineInUse a1.storage a1.now m then a1
  else { a1 with selectedTime := (machines m).defaultTime, modalVisible := true }

/-- Embeds `adjustTime` (app.js 118-126): shift the selected time by `delta`
minutes and clamp into `[5, 90]`. -/
def adjustTime (a : AppState) (delta : Int) : AppState :=
  { a with selectedTime := (clampDuration ((a.selectedTime : Int) + delta)).toNat }

/-- Embeds `startTimer` (app.js 128-142): no-op without a current machine;
otherwise writes `{inUse: true, endTime: now + minutes*60000}` for
`this.currentMachine` (with no busy re-check), schedules the notification,
hides the modal and clears `currentMachine`. -/
def startTimer (a : AppState) : AppState :=
  match a.currentMachine with
  | none => a
  | some m =>
    let minutes := a.selectedTime
    hideModal
      { a with
        storage := a.storage.set m ⟨true, some (a.now + minutes * 60000)⟩,
        pending := a.pending ++ [scheduleNotification a.now m minutes] }

/-- The events the single-threaded event loop can deliver.  Button events
(`adjust`, `confirm`, `cancel`) are only reachable while the timer modal is
visible; `sweep` is the expiry pass of `loadMachineStates`; `tick` advances
the wall clock. -/
inductive Event
  | scan (m : MachineId)
  | adjust (delta : Int)
  | confirm
  | cancel
  | sweep
  | tick (dt : Nat)
  deriving DecidableEq, Repr

/-- One atomic event-handler invocation.  JavaScript's event loop runs each
handler to completion, so a step is never interleaved with another. -/
def step (a : AppState) : Event → AppState
  | .scan m => handleMachineScan a m
  | .adjust d => if a.modalVisible then adjustTime a d else a
  | .confirm => if a.modalVisible then startTimer a else a
  | .cancel => if a.modalVisible then hideModal a else a
  | .sweep => { a with storage := expireStale a.now a.storage }
  | .tick dt => { a with now := a.now + dt }

/-- Run a sequence of events from a state. -/
def run (a : AppState) : List Event → AppState
  | [] => a
  | e :: es => run (step a e) es

/-- The initial state of a fresh session over empty storage at time 0. -/
def initialState : AppState :=
  ⟨Storage.empty, none, 0, false, [], 0⟩

/-! ## Helper lemmas -/

theorem Storage.get_set_self (st : Storage) (m : MachineId) (s : MachineState) :
    (st.set m s).get m = some s := by
  cases m <;> rfl

theorem get_expireStale (now : Nat) (st : Storage) (m : MachineId) :
    (expireStale now st).get m = expireOne now (st.get m) := by
  cases m <;> rfl

theorem minutesLeftOf_full (now d : Nat) :
    minutesLeftOf (now + d * 60000) now = d := by
  unfold minutesLeftOf
  omega

theorem getStatus_of_record (st : Storage) (now : Nat) (m : MachineId)
    (s : MachineState) (hrec : st.get m = some s) :
    getStatus st now m =
      if s.inUse && endTimeAfter s.endTime now then
        .inUse (minutesLeftOf (s.endTime.getD 0) now)
      else .available := by
  unfold getStatus
  rw [hrec]

/-! ## Claims -/

/-- C1: for every `durationMinutes` `d` in `[5, 90]`, a successful claim of a
free catalog machine at time `now` computes `endTime = now + d` minutes
(`now + d * 60000` ms), persists `{inUse: true, endTime}` for that machine,
and `getStatus` on that machine at the same instant returns `InUse` with
`minutesRemaining = d`. -/
theorem claim_then_getStatus (st : Storage) (now : Nat) (m : MachineId)
    (d : Nat) (h5 : 5 ≤ d) (h90 : d ≤ 90)
    (hfree : isMachineInUse st now m = false) :
    (claim st now m d).1 = .success ⟨true, some (now + d * 60000)⟩ ∧
    ((claim st now m d).2).get m = some ⟨true, some (now + d * 60000)⟩ ∧
    getStatus ((claim st now m d).2) now m = .inUse d := by
  have hget : ((claim st now m d).2).get m
      = some ⟨true, some (now + d * 60000)⟩ := by
    unfold claim
    rw [hfree]
    simp [Storage.get_set_self]
  refine ⟨by unfold claim; rw [hfree]; simp, hget, ?_⟩
  unfold getStatus
  rw [hget]
  have hafter : endTimeAfter (some (now + d * 60000)) now = true := by
    unfold endTimeAfter
    simp
    omega
  simp [hafter, minutesLeftOf_full]

/-- Witness for C1 at `d = 30` on `washer1` over empty storage. -/
theorem claim_then_getStatus_witness :
    isMachineInUse Storage.empty 0 MachineId.washer1 = false ∧
    getStatus ((claim Storage.empty 0 MachineId.washer1 30).2) 0
      MachineId.washer1 = .inUse 30 :=
  ⟨by decide,
   (claim_then_getStatus Storage.empty 0 MachineId.washer1 30 (by decide)
      (by decide) (by decide)).2.2⟩

/-- C2: a claim on a machine currently `InUse` (stored record has
`inUse = true` and `endTime` strictly in the future, i.e. `isMachineInUse`
holds) fails with `MachineBusy` and leaves the whole storage — in
particular that machine's record and its `endTime` — unchanged. -/
theorem claim_busy_fails_unchanged (st : Storage) (now : Nat) (m : MachineId)
    (d : Nat) (hbusy : isMachineInUse st now m = true) :
    (claim st now m d).1 = .machineBusy ∧
    (claim st now m d).2 = st ∧
    ((claim st now m d).2).get m = st.get m := by
  unfold claim
  rw [hbusy]
  simp

/-- Witness for C2: `washer1` busy until `t = 100` at `now = 0`. -/
theorem claim_busy_fails_unchanged_witness :
    isMachineInUse (Storage.empty.set MachineId.washer1 ⟨true, some 100⟩) 0
      MachineId.washer1 = true ∧
    (claim (Storage.empty.set MachineId.washer1 ⟨true, some 100⟩) 0
      MachineId.washer1 30).1 = .machineBusy :=
  ⟨by decide,
   (claim_busy_fails_unchanged
      (Storage.empty.set MachineId.washer1 ⟨true, some 100⟩) 0
      MachineId.washer1 30 (by decide)).1⟩

/-- The event sequence exhibiting the double-claim interleaving: claim
`washer1` for 30 minutes, then open the modal by scanning the free
`washer2`, raise the selected time to 35, scan the busy `washer1` (which is
refused with the busy dialog, but still assigns `this.currentMachine`), and
press confirm. -/
def doubleClaimTrace : List Event :=
  [.scan .washer1, .confirm, .scan .washer2, .adjust 5, .scan .washer1,
   .confirm]

/-- C3: the busy-check read and the record write are NOT a single atomic
step.  After the first five events of `doubleClaimTrace`, `washer1` is
`InUse` (record `endTime = 1800000`, clock still at 0, no expiry or release
has happened), the busy scan of `washer1` was refused — yet the modal
left open by the `washer2` scan lets the confirm click run `startTimer`
with `currentMachine = washer1`, overwriting the active record with
`endTime = 2100000`: a second successful claim on a busy machine. -/
theorem double_claim_both_succeed :
    isMachineInUse (run initialState (List.take 5 doubleClaimTrace)).storage
      (run initialState (List.take 5 doubleClaimTrace)).now .washer1 = true ∧
    (run initialState (List.take 5 doubleClaimTrace)).storage.get .washer1
      = some ⟨true, some 1800000⟩ ∧
    (run initialState (List.take 5 doubleClaimTrace)).currentMachine
      = some .washer1 ∧
    (run initialState (List.take 5 doubleClaimTrace)).modalVisible = true ∧
    (run initialState doubleClaimTrace).storage.get .washer1
      = some ⟨true, some 2100000⟩ ∧
    (run initialState doubleClaimTrace).now = 0 := by
  decide

/-- C4: a stored record with `inUse = true` whose `endTime` has passed is
treated as free: `getStatus` returns `Available` before any sweep, a claim
on the machine succeeds, and after `expireStale` the stored record is
`inUse: false`. -/
theorem expired_record_claimable (st : Storage) (now : Nat) (m : MachineId)
    (e d : Nat) (hrec : st.get m = some ⟨true, some e⟩) (hpast : e ≤ now) :
    getStatus st now m = .available ∧
    (claim st now m d).1 = .success ⟨true, some (now + d * 60000)⟩ ∧
    (expireStale now st).get m = some ⟨false, none⟩ := by
  have hnotbusy : isMachineInUse st now m = false := by
    unfold isMachineInUse
    rw [hrec]
    unfold endTimeAfter
    simp
    omega
  refine ⟨?_, ?_, ?_⟩
  · unfold getStatus
    rw [hrec]
    unfold endTimeAfter
    simp
    omega
  · unfold claim
    rw [hnotbusy]
    simp
  · rw [get_expireStale, hrec]
    unfold expireOne
    simp [hpast]

/-- Witness for C4: `washer1` expired at `t = 500`, queried at `t = 1000`. -/
theorem expired_record_claimable_witness :
    (Storage.empty.set MachineId.washer1 ⟨true, some 500⟩).get
      MachineId.washer1 = some ⟨true, some 500⟩ ∧
    getStatus (Storage.empty.set MachineId.washer1 ⟨true, some 500⟩) 1000
      MachineId.washer1 = .available :=
  ⟨by decide,
   (expired_record_claimable
      (Storage.empty.set MachineId.washer1 ⟨true, some 500⟩) 1000
      MachineId.washer1 500 30 (by decide) (by decide)).1⟩

/-- C5 counterexample: a claim with `durationMinutes = 0` (or `200`) does
NOT fail — there is no `InvalidDuration` error anywhere in the code — and
it mutates state: with empty storage at `now = 1000`, duration 0 succeeds
and writes `{inUse: true, endTime: 1000}`, and duration 200 succeeds with
`endTime = 1000 + 200 * 60000`. -/
theorem claim_out_of_range_succeeds :
    (claim Storage.empty 1000 .washer1 0).1 = .success ⟨true, some 1000⟩ ∧
    (claim Storage.empty 1000 .washer1 0).2 ≠ Storage.empty ∧
    (claim Storage.empty 1000 .washer1 200).1
      = .success ⟨true, some 12001000⟩ ∧
    (claim Storage.empty 1000 .washer1 200).2.get .washer1
      ≠ Storage.empty.get .washer1 := by
  decide

/-- C5 amended: the engine performs no duration validation — a claim on a
free machine succeeds for every `d`, including 0 and 200, writing
`endTime = now + d * 60000`.  Out-of-range durations are kept out only by
the presentation layer: the clamp in `adjustTime` maps every adjusted value
into `[5, 90]`. -/
theorem claim_unvalidated_ui_clamped (st : Storage) (now : Nat)
    (m : MachineId) (d : Nat) (t delta : Int)
    (hfree : isMachineInUse st now m = false) :
    (claim st now m d).1 = .success ⟨true, some (now + d * 60000)⟩ ∧
    5 ≤ clampDuration (t + delta) ∧ clampDuration (t + delta) ≤ 90 := by
  refine ⟨?_, ?_, ?_⟩
  · unfold claim
    rw [hfree]
    simp
  · unfold clampDuration
    omega
  · unfold clampDuration
    omega

/-- Witness for the amended C5 at `d = 0`, adjusting `95 + 5`. -/
theorem claim_unvalidated_ui_clamped_witness :
    isMachineInUse Storage.empty 1000 MachineId.washer1 = false ∧
    (claim Storage.empty 1000 MachineId.washer1 0).1
      = .success ⟨true, some 1000⟩ ∧
    clampDuration (95 + 5) ≤ 90 :=
  ⟨by decide,
   (claim_unvalidated_ui_clamped Storage.empty 1000 MachineId.washer1 0 95 5
      (by decide)).1,
   (claim_unvalidated_ui_clamped Storage.empty 1000 MachineId.washer1 0 95 5
      (by decide)).2.2⟩

/-- C6: the completion-warning alert of a claim for `d` minutes carries the
machine id and is due `(d - 10)` minutes after claim start — at
`endTime - 10` minutes when `d ≥ 10` — and when `d ≤ 10` the negative
delay handed to `setTimeout` is clamped to zero, so the alert fires
immediately (`fireTime = now`) instead of being skipped. -/
theorem notification_fire_time (now : Nat) (m : MachineId) (d : Nat) :
    (scheduleNotification now m d).machineId = m ∧
    (10 ≤ d →
      (scheduleNotification now m d).fireTime + 10 * 60000
        = now + d * 60000) ∧
    (d ≤ 10 → (scheduleNotification now m d).fireTime = now) := by
  unfold scheduleNotification
  refine ⟨rfl, ?_, ?_⟩ <;> intro h <;> simp <;> omega

/-- Witness for C6: a 5-minute claim on `dryer1` at `t = 0` fires its alert
at `t = 0`; a 30-minute claim on `washer1` fires at `t = 20` minutes. -/
theorem notification_fire_time_witness :
    (scheduleNotification 0 MachineId.dryer1 5).fireTime = 0 ∧
    (scheduleNotification 0 MachineId.washer1 30).fireTime + 10 * 60000
      = 0 + 30 * 60000 :=
  ⟨(notification_fire_time 0 MachineId.dryer1 5).2.2 (by decide),
   (notification_fire_time 0 MachineId.washer1 30).2.1 (by decide)⟩

/-- C7: whenever `getStatus` reports `InUse k`, the stored `endTime` is
strictly in the future and `k` is exactly the ceiling of
`(endTime - now) / 60000`: it is the unique number with
`endTime - now ≤ k * 60000 < (endTime - now) + 60000`, and `k ≥ 1` — never
0 or negative while the machine is `InUse`. -/
theorem minutesRemaining_is_ceiling (st : Storage) (now : Nat)
    (m : MachineId) (s : MachineState) (e k : Nat)
    (hrec : st.get m = some s) (he : s.endTime = some e)
    (hk : getStatus st now m = .inUse k) :
    now < e ∧ k = minutesLeftOf e now ∧
    e - now ≤ k * 60000 ∧ k * 60000 < (e - now) + 60000 ∧ 1 ≤ k := by
  rw [getStatus_of_record st now m s hrec] at hk
  by_cases hb : (s.inUse && endTimeAfter s.endTime now) = true
  · rw [Bool.and_eq_true] at hb
    have hafter := hb.2
    rw [he] at hafter
    unfold endTimeAfter at hafter
    have hlt : now < e := by simpa using hafter
    rw [if_pos (by rw [Bool.and_eq_true]; exact hb), he] at hk
    have hkeq : k = minutesLeftOf e now := by
      simpa using hk.symm
    refine ⟨hlt, hkeq, ?_, ?_, ?_⟩ <;>
      (rw [hkeq]; unfold minutesLeftOf; omega)
  · rw [if_neg hb] at hk
    exact absurd hk (by simp)

/-- Witness for C7: `washer1` busy until `t = 1800000` ms, queried at
`t = 60001` ms (29 minutes and 59.999 seconds left, reported as 29... in
fact `ceil(1739999 / 60000) = 29`). -/
theorem minutesRemaining_is_ceiling_witness :
    getStatus (Storage.empty.set MachineId.washer1 ⟨true, some 1800000⟩)
      60001 MachineId.washer1 = .inUse 29 ∧
    (60001 < 1800000 ∧ 29 = minutesLeftOf 1800000 60001 ∧
      1800000 - 60001 ≤ 29 * 60000 ∧
      29 * 60000 < (1800000 - 60001) + 60000 ∧ 1 ≤ 29) :=
  ⟨by decide,
   minutesRemaining_is_ceiling
     (Storage.empty.set MachineId.washer1 ⟨true, some 1800000⟩) 60001
     MachineId.washer1 ⟨true, some 1800000⟩ 1800000 29 (by decide) (by decide)
     (by decide)⟩

theorem expireOne_idem (now : Nat) (s : Option MachineState) :
    expireOne now (expireOne now s) = expireOne now s := by
  rcases s with _ | ⟨u, _ | e⟩
  · rfl
  · rfl
  · by_cases h : e ≤ now <;> simp [expireOne, h]

theorem expireWritesOne_after (now : Nat) (s : Option MachineState) :
    expireWritesOne now (expireOne now s) = false := by
  rcases s with _ | ⟨u, _ | e⟩
  · rfl
  · rfl
  · by_cases h : e ≤ now <;> simp [expireOne, expireWritesOne, h]

/-- C8: the staleness sweep is idempotent — running `expireStale` twice at
the same instant with no intervening claims yields storage identical to the
state after the first run, and the second run matches the write condition of
app.js line 177 on no machine, so it performs no `setMachineState` call. -/
theorem expireStale_idempotent (now : Nat) (st : Storage) :
    expireStale now (expireStale now st) = expireStale now st ∧
    expireWrites now (expireStale now st) = [] := by
  constructor
  · show expireStale now ⟨_, _, _, _⟩ = _
    unfold expireStale
    simp [expireOne_idem]
  · unfold expireWrites expireStale
    simp [expireWritesOne_after]

/-- C9 counterexample: after `doubleClaimTrace`, the 30-minute session of
`washer1` claimed at `t = 0` has been superseded (its record overwritten
with `endTime = 2100000`) while the clock is still at `t = 0`, well before
its completion-warning alert is due at `t = 1200000` — yet that alert is
still pending: nothing in the code cancels a scheduled `setTimeout`, so the
stale alert will fire and reference the ended session. -/
theorem superseded_alert_still_pending :
    (run initialState doubleClaimTrace).storage.get .washer1
      = some ⟨true, some 2100000⟩ ∧
    (run initialState doubleClaimTrace).now = 0 ∧
    (run initialState doubleClaimTrace).now < 1200000 ∧
    (run initialState doubleClaimTrace).pending
      = [⟨.washer1, 1200000⟩, ⟨.washer1, 1500000⟩] := by
  decide

/-- C9 amended: pending completion-warning alerts are never cancelled.  The
app keeps no handle to the `setTimeout` task, and no event-handler step
removes or modifies a pending alert: every step leaves the pending list a
prefix of the new one (appending at most the alert of a new claim).  In
particular an alert whose session is superseded before it fires still fires
at its originally scheduled time. -/
theorem pending_alert_never_cancelled (a : AppState) (e : Event) :
    ∃ l, (step a e).pending = a.pending ++ l := by
  cases e with
  | scan m =>
    refine ⟨[], ?_⟩
    rw [List.append_nil]
    show (handleMachineScan a m).pending = a.pending
    unfold handleMachineScan
    dsimp only
    split <;> rfl
  | adjust d =>
    refine ⟨[], ?_⟩
    rw [List.append_nil]
    show (if a.modalVisible then adjustTime a d else a).pending = a.pending
    split <;> rfl
  | confirm =>
    show ∃ l, (if a.modalVisible then startTimer a else a).pending
      = a.pending ++ l
    by_cases h : a.modalVisible
    · rw [if_pos h]
      rcases hcm : a.currentMachine with _ | m
      · refine ⟨[], ?_⟩
        unfold startTimer
        rw [hcm, List.append_nil]
      · refine ⟨[scheduleNotification a.now m a.selectedTime], ?_⟩
        unfold startTimer
        rw [hcm]
        rfl
    · rw [if_neg h]
      exact ⟨[], (List.append_nil _).symm⟩
  | cancel =>
    refine ⟨[], ?_⟩
    rw [List.append_nil]
    show (if a.modalVisible then hideModal a else a).pending = a.pending
    split <;> rfl
  | sweep => exact ⟨[], (List.append_nil _).symm⟩
  | tick dt => exact ⟨[], (List.append_nil _).symm⟩

/-- C10: records with `inUse = false` are fully handled whether or not an
`endTime` field is present: `getStatus` reports `Available` without
consulting `endTime`; the sweep rewrites an expired record to exactly
`{inUse: false}` with no `endTime` field; and a claim on a machine holding
such a bare record succeeds and overwrites it with a complete record. -/
theorem free_record_total (st : Storage) (now : Nat) (m : MachineId)
    (s : MachineState) (e d : Nat) :
    (st.get m = some s → s.inUse = false → getStatus st now m = .available) ∧
    (st.get m = some ⟨true, some e⟩ → e ≤ now →
      (expireStale now st).get m = some ⟨false, none⟩) ∧
    (st.get m = some ⟨false, none⟩ →
      claim st now m d =
        (.success ⟨true, some (now + d * 60000)⟩,
         st.set m ⟨true, some (now + d * 60000)⟩)) := by
  refine ⟨?_, ?_, ?_⟩
  · intro hrec hfalse
    rw [getStatus_of_record st now m s hrec, hfalse]
    simp
  · intro hrec hpast
    rw [get_expireStale, hrec]
    unfold expireOne
    simp [hpast]
  · intro hrec
    have hfree : isMachineInUse st now m = false := by
      unfold isMachineInUse
      rw [hrec]
      rfl
    unfold claim
    rw [hfree]
    simp

/-- Witness for C10: a bare `{inUse: false}` record on `washer1` is
`Available` and claimable; an expired `washer2` record is rewritten to the
bare shape. -/
theorem free_record_total_witness :
    getStatus (Storage.empty.set MachineId.washer1 ⟨false, none⟩) 0
      MachineId.washer1 = .available ∧
    (expireStale 10 (Storage.empty.set MachineId.washer2 ⟨true, some 5⟩)).get
      MachineId.washer2 = some ⟨false, none⟩ ∧
    claim (Storage.empty.set MachineId.washer1 ⟨false, none⟩) 0
      MachineId.washer1 30 =
      (.success ⟨true, some (0 + 30 * 60000)⟩,
       (Storage.empty.set MachineId.washer1 ⟨false, none⟩).set
         MachineId.washer1 ⟨true, some (0 + 30 * 60000)⟩) :=
  ⟨(free_record_total (Storage.empty.set MachineId.washer1 ⟨false, none⟩) 0
      MachineId.washer1 ⟨false, none⟩ 0 30).1 (by decide) (by decide),
   (free_record_total (Storage.empty.set MachineId.washer2 ⟨true, some 5⟩) 10
      MachineId.washer2 ⟨true, some 5⟩ 5 30).2.1 (by decide) (by decide),
   (free_record_total (Storage.empty.set MachineId.washer1 ⟨false, none⟩) 0
      MachineId.washer1 ⟨false, none⟩ 0 30).2.2 (by decide)⟩

end LaundryApp
